import Mathlib

/-!
StackNN controller and logging: a shallow embedding.

This file embeds, in Lean 4, the controller control loop of
`models/vanilla.py` (`VanillaController`) and the reporting tools of
`models/networks/base.py` (`SimpleStructNetwork`), and proves the spec's
claims about them.

Conventions of the embedding:

* Tensor entries are rationals (`ℚ`); a batched vector (a PyTorch
  `Variable` of shape `batch × width`) is a `Mat := List (List ℚ)`,
  one row per batch element.
* The 3-dimensional input buffer `xs` of shape `batch × time × width`
  is represented time-major as a `List Mat`: element `t` of the list is
  the slice `xs[:, t, :]` (a `batch × width` matrix).  `xs.size(1)`,
  the time length, is then the length of the list.
* The Network (`self._network(x, r)`) and the neural data structure
  (`self._struct(v, u, d)`) are external collaborators: `VanillaController`
  only calls them through their interfaces, so the embedding takes them as
  function parameters `net : Mat → Mat → Mat × (Mat × Mat × Mat)` and
  `struct : Mat → Mat → Mat → Mat`.
* Python exceptions are modelled with `Except String`: an exception
  propagates to the caller before any state mutation has happened, so an
  `Except.error` result carries no successor state.
-/

namespace StackNN

/-- A batched vector: one row of rationals per batch element. -/
abbrev Mat : Type := List (List ℚ)

/-- Embedding of `torch.zeros(rows, cols)` as a `Mat`. -/
def zerosMat (rows cols : Nat) : Mat :=
  List.replicate rows (List.replicate cols 0)

/-- The session state of a `VanillaController`, i.e. the fields of
`models/vanilla.py` that the control loop reads and writes:
`self._read`, `self._buffer_in`, `self._buffer_out`, `self._t` and
`self._zeros`.  `self._read` is `none` before initialization. -/
structure ControllerState where
  read : Option Mat
  bufferIn : List Mat
  bufferOut : List Mat
  t : Nat
  zeros : Mat
  deriving Repr, DecidableEq

/-- Embedding of `VanillaController._init_buffer(batch_size, xs)`: installs `xs` as the
input buffer, empties the output buffer, resets `self._t` to `0` and
allocates `self._zeros = torch.zeros(batch_size, input_size)`. -/
def init_buffer (inputSize : Nat) (batchSize : Nat) (xs : List Mat)
    (s : ControllerState) : ControllerState :=
  { s with
    bufferIn := xs
    bufferOut := []
    t := 0
    zeros := zerosMat batchSize inputSize }

/-- Modelled from the spec: `AbstractController.init_controller` (defined in
`models/base.py`, a file not present here) backs the public `init`
operation.  Per the spec it resets the time cursor to `0`, installs the
input sequence, clears the output buffer, sets the current read vector to a
zero vector of read width, and allocates the zero input-padding vector; the
buffer part is exactly `VanillaController._init_buffer`. -/
def init_controller (inputSize readSize : Nat) (batchSize : Nat)
    (xs : List Mat) (s : ControllerState) : ControllerState :=
  { init_buffer inputSize batchSize xs s with
    read := some (zerosMat batchSize readSize) }

/-- Embedding of `VanillaController._read_input()`: if `self._t < self._buffer_in.size(1)`
then increment `self._t` and return the slice `self._buffer_in[:, t, :]` at
the old value of `t`, else return `self._zeros` (and leave `t` alone).
Returns the fetched vector together with the updated state. -/
def read_input (s : ControllerState) : Mat × ControllerState :=
  if s.t < s.bufferIn.length then
    (s.bufferIn.getD s.t [], { s with t := s.t + 1 })
  else
    (s.zeros, s)

/-- Embedding of `VanillaController._write_output(value)`: `self._buffer_out.append(value)`. -/
def write_output (value : Mat) (s : ControllerState) : ControllerState :=
  { s with bufferOut := s.bufferOut ++ [value] }

/-- The `self._buffer_out` attribute as it is stored on the Python object:
`None` right after `__init__` (`self._buffer_out = None`), and a Python
list once `_init_buffer` has installed `[]`.  In an initialized session
state `s : ControllerState` the attribute is `some s.bufferOut`. -/
abbrev OutBuffer : Type := Option (List Mat)

/-- Embedding of `VanillaController.read_output()` on the stored
`self._buffer_out` attribute.  The method first evaluates
`len(self._buffer_out)`: when the attribute is still `None` (before any
`init`) this raises `TypeError: object of type NoneType has no len()`;
on a non-empty list it removes and returns the front element
(`self._buffer_out.pop(0)`); on an empty list it returns `None` and
leaves the buffer — and every other field of the controller, none of
which the method touches — unchanged. -/
def read_output (bufOut : OutBuffer) : Except String (Option Mat × OutBuffer) :=
  match bufOut with
  | none => .error "object of type NoneType has no len()"
  | some [] => .ok (none, some [])
  | some (y :: ys) => .ok (some y, some ys)

/-- Embedding of `VanillaController.forward()`: raises
`RuntimeError("The data structure has not been initialized.")` when
`self._read is None`; otherwise fetches the next input `x`, runs
`output, (v, u, d) = self._network(x, self._read)`, stores
`self._read = self._struct(v, u, d)` and appends `output` to the output
buffer.  `net` and `struct` are the external Network and data structure. -/
def forward (net : Mat → Mat → Mat × (Mat × Mat × Mat))
    (struct : Mat → Mat → Mat → Mat) (s : ControllerState) :
    Except String ControllerState :=
  match s.read with
  | none => .error "The data structure has not been initialized."
  | some r =>
      let p := read_input s
      let x := p.1
      let s1 := p.2
      let o := net x r
      let output := o.1
      let v := o.2.1
      let u := o.2.2.1
      let d := o.2.2.2
      .ok (write_output output { s1 with read := some (struct v u d) })

/-- Iteration of `n` consecutive `step` (i.e. `forward`) calls, propagating exceptions. -/
def stepN (net : Mat → Mat → Mat × (Mat × Mat × Mat))
    (struct : Mat → Mat → Mat → Mat) :
    Nat → ControllerState → Except String ControllerState
  | 0, s => .ok s
  | n + 1, s => (stepN net struct n s).bind (forward net struct)

/-- Iteration of `n` consecutive `_read_input` calls, keeping only the state. -/
def readInputN : Nat → ControllerState → ControllerState
  | 0, s => s
  | n + 1, s => (read_input (readInputN n s)).2

/-- Iteration of `n` consecutive `read_output` calls on the stored
buffer attribute, collecting the returned values in call order and
propagating any exception. -/
def readOutputN : Nat → OutBuffer → Except String (List (Option Mat) × OutBuffer)
  | 0, b => .ok ([], b)
  | n + 1, b =>
      match read_output b with
      | .error e => .error e
      | .ok p =>
          match readOutputN n p.2 with
          | .error e => .error e
          | .ok q => .ok (p.1 :: q.1, q.2)

/-- The reporting state of a `SimpleStructNetwork`
(`models/networks/base.py`): the flag `self._log`, the table
`self._log_data` (a numpy array, one row per logged quantity and one
column per time step), the declared capacity `self._log_data_size` and
the entry counter `self._curr_log_entry`.  In the source the flag
`self._log` shares its name with the recording method `_log`; here the
flag keeps the name and the method is embedded as `logRecord`. -/
structure LogState where
  log : Bool
  log_data : Mat
  log_data_size : Nat
  curr_log_entry : Nat
  deriving Repr, DecidableEq

/-- Embedding of `SimpleStructNetwork.init_log(log_data_size)`: sets
`self._log_data = np.zeros([2 + self._read_size, log_data_size])`,
records the capacity and resets the entry counter to `0`.  `readSize` is
the network's immutable `self._read_size`. -/
def init_log (readSize : Nat) (log_data_size : Nat) (s : LogState) : LogState :=
  { s with
    log_data := zerosMat (2 + readSize) log_data_size
    log_data_size := log_data_size
    curr_log_entry := 0 }

/-- Embedding of `SimpleStructNetwork.start_log(log_data_size=None)`: sets
`self._log = True`, and only when a capacity is supplied
(`log_data_size is not None`) additionally calls `self.init_log`. -/
def start_log (readSize : Nat) (sz : Option Nat) (s : LogState) : LogState :=
  let s1 := { s with log := true }
  match sz with
  | none => s1
  | some n => init_log readSize n s1

/-- Embedding of `SimpleStructNetwork.stop_log()`: sets `self._log = False`. -/
def stop_log (s : LogState) : LogState :=
  { s with log := false }

/-- The flattened entries of a `Mat`, in row-major order (the elements of
the underlying numpy array). -/
def matEntries (m : Mat) : List ℚ :=
  m.foldr (fun row acc => row ++ acc) []

/-- Writing a cell of a matrix: `m.set i ((m.getD i []).set j x)` replaces
entry `(i, j)` of `m` by `x` (out-of-range indices leave `m` unchanged,
which never happens at the call sites proved about below). -/
def setCell (m : Mat) (i j : Nat) (x : ℚ) : Mat :=
  m.set i ((m.getD i []).set j x)

/-- Semantics of the numpy scalar-cell assignment `m[i, j] = a` where `a`
is an ndarray: the assignment succeeds exactly when `a` has a single
element (numpy broadcasts a size-1 array into the scalar cell) and raises
a `ValueError` otherwise. -/
def writeScalar (m : Mat) (i j : Nat) (a : Mat) : Except String Mat :=
  match matEntries a with
  | [x] => .ok (setCell m i j x)
  | _ => .error "could not broadcast input array into scalar element"

/-- Embedding of the recording method `SimpleStructNetwork._log(v, u, d)`:
returns immediately when `self._log` is false or when
`self._curr_log_entry >= self._log_data_size`; otherwise assigns
`self._log_data[2, k] = v.data.numpy()`, then
`self._log_data[0, k] = u.data.numpy()`, then
`self._log_data[1, k] = d.data.numpy()` (each a numpy scalar-cell
assignment, `k` the current entry), and increments the entry counter. -/
def logRecord (s : LogState) (v u d : Mat) : Except String LogState :=
  if s.log = false then .ok s
  else if s.log_data_size ≤ s.curr_log_entry then .ok s
  else
    match writeScalar s.log_data 2 s.curr_log_entry v with
    | .error e => .error e
    | .ok m1 =>
        match writeScalar m1 0 s.curr_log_entry u with
        | .error e => .error e
        | .ok m2 =>
            match writeScalar m2 1 s.curr_log_entry d with
            | .error e => .error e
            | .ok m3 =>
                .ok { s with
                  log_data := m3
                  curr_log_entry := s.curr_log_entry + 1 }

/-- Observable actions performed by `VanillaController.trace`, in program
order: switching the module to evaluation mode (`self.eval()`),
re-initializing the controller (`self.init_controller(1, trace_x)`),
enabling logging with a capacity (`self._network.start_log(max_length)`),
one `self.forward()` call, disabling logging
(`self._network.stop_log()`), and rendering the logged matrix
(`plt.imshow(self._network.log_data, ...)`). -/
inductive TraceAction where
  | evalMode : TraceAction
  | initCtrl : Nat → List Mat → TraceAction
  | startLogging : Nat → TraceAction
  | stepCall : TraceAction
  | stopLogging : TraceAction
  | render : Mat → TraceAction
  deriving Repr, DecidableEq

/-- The loop `for j in xrange(max_length): self.forward()` of `trace`,
emitting one `stepCall` action per iteration and propagating any
exception. -/
def stepLoopA (net : Mat → Mat → Mat × (Mat × Mat × Mat))
    (struct : Mat → Mat → Mat → Mat) :
    Nat → ControllerState → Except String (ControllerState × List TraceAction)
  | 0, c => .ok (c, [])
  | n + 1, c =>
      match forward net struct c with
      | .error e => .error e
      | .ok c1 =>
          match stepLoopA net struct n c1 with
          | .error e => .error e
          | .ok q => .ok (q.1, TraceAction.stepCall :: q.2)

/-- Embedding of `VanillaController.trace(trace_x)`: calls `self.eval()`,
`self.init_controller(1, trace_x)`, computes
`max_length = trace_x.data.shape[1]` (the time length), calls
`self._network.start_log(max_length)`, runs `self.forward()` exactly
`max_length` times, calls `self._network.stop_log()` and renders
`self._network.log_data`.  The result pairs the final controller and log
states with the list of observable actions in program order.  Evaluation
mode and the rendering are external effects (PyTorch and matplotlib) and
appear only as actions. -/
def trace (net : Mat → Mat → Mat × (Mat × Mat × Mat))
    (struct : Mat → Mat → Mat → Mat) (inputSize readSize : Nat)
    (trace_x : List Mat) (c : ControllerState) (l : LogState) :
    Except String ((ControllerState × LogState) × List TraceAction) :=
  let c1 := init_controller inputSize readSize 1 trace_x c
  let maxLength := trace_x.length
  let l1 := start_log readSize (some maxLength) l
  match stepLoopA net struct maxLength c1 with
  | .error e => .error e
  | .ok q =>
      let l2 := stop_log l1
      .ok ((q.1, l2),
        TraceAction.evalMode :: TraceAction.initCtrl 1 trace_x ::
          TraceAction.startLogging maxLength ::
            (q.2 ++ [TraceAction.stopLogging, TraceAction.render l2.log_data]))

/-! Helper lemmas about the controller operations. -/

theorem read_input_snd_bufferIn (s : ControllerState) :
    (read_input s).2.bufferIn = s.bufferIn := by
  unfold read_input; split <;> rfl

theorem read_input_snd_bufferOut (s : ControllerState) :
    (read_input s).2.bufferOut = s.bufferOut := by
  unfold read_input; split <;> rfl

theorem read_input_snd_zeros (s : ControllerState) :
    (read_input s).2.zeros = s.zeros := by
  unfold read_input; split <;> rfl

theorem read_input_snd_t (s : ControllerState) :
    (read_input s).2.t = if s.t < s.bufferIn.length then s.t + 1 else s.t := by
  unfold read_input; split <;> simp_all

theorem read_input_fst (s : ControllerState) :
    (read_input s).1 =
      if s.t < s.bufferIn.length then s.bufferIn.getD s.t [] else s.zeros := by
  unfold read_input; split <;> simp_all

theorem forward_some_fields (net : Mat → Mat → Mat × (Mat × Mat × Mat))
    (struct : Mat → Mat → Mat → Mat) (s : ControllerState) (r : Mat)
    (h : s.read = some r) :
    ∃ s', forward net struct s = .ok s' ∧
      s'.read = some (struct (net (read_input s).1 r).2.1
        (net (read_input s).1 r).2.2.1 (net (read_input s).1 r).2.2.2) ∧
      s'.bufferIn = s.bufferIn ∧
      s'.bufferOut = s.bufferOut ++ [(net (read_input s).1 r).1] ∧
      s'.t = (read_input s).2.t ∧
      s'.zeros = s.zeros := by
  refine ⟨write_output (net (read_input s).1 r).1
      { (read_input s).2 with read := some (struct (net (read_input s).1 r).2.1
          (net (read_input s).1 r).2.2.1 (net (read_input s).1 r).2.2.2) },
    ?_, rfl, ?_, ?_, ?_, ?_⟩
  · unfold forward
    rw [h]
  · simp [write_output, read_input_snd_bufferIn]
  · simp [write_output, read_input_snd_bufferOut]
  · simp [write_output]
  · simp [write_output, read_input_snd_zeros]

theorem stepN_fields (net : Mat → Mat → Mat × (Mat × Mat × Mat))
    (struct : Mat → Mat → Mat → Mat) :
    ∀ (n : Nat) (s : ControllerState), s.read.isSome →
      ∃ s', stepN net struct n s = .ok s' ∧ s'.read.isSome ∧
        s'.bufferIn = s.bufferIn ∧ s'.zeros = s.zeros ∧
        s'.bufferOut.length = s.bufferOut.length + n ∧
        s'.t = max s.t (min (s.t + n) s.bufferIn.length)
  | 0, s, hs => by
      refine ⟨s, rfl, hs, rfl, rfl, rfl, ?_⟩
      omega
  | n + 1, s, hs => by
      obtain ⟨sn, hok, hread, hin, hz, hlen, ht⟩ := stepN_fields net struct n s hs
      obtain ⟨r, hr⟩ := Option.isSome_iff_exists.mp hread
      obtain ⟨s', hok', hread', hin', hout', ht', hz'⟩ :=
        forward_some_fields net struct sn r hr
      refine ⟨s', ?_, ?_, ?_, ?_, ?_, ?_⟩
      · unfold stepN
        rw [hok]
        exact hok'
      · rw [hread']; rfl
      · rw [hin', hin]
      · rw [hz', hz]
      · rw [hout']
        simp [hlen]
        omega
      · rw [ht', read_input_snd_t, hin, ht]
        rcases Nat.lt_or_ge (max s.t (min (s.t + n) s.bufferIn.length))
            s.bufferIn.length with hc | hc
        · rw [if_pos hc]; omega
        · rw [if_neg (by omega)]; omega

theorem forward_none (net : Mat → Mat → Mat × (Mat × Mat × Mat))
    (struct : Mat → Mat → Mat → Mat) (s : ControllerState)
    (h : s.read = none) :
    forward net struct s =
      .error "The data structure has not been initialized." := by
  unfold forward
  rw [h]

theorem readInputN_fields (n : Nat) (s : ControllerState) :
    (readInputN n s).bufferIn = s.bufferIn ∧
      (readInputN n s).t = max s.t (min (s.t + n) s.bufferIn.length) := by
  induction n with
  | zero =>
      refine ⟨rfl, ?_⟩
      show s.t = max s.t (min (s.t + 0) s.bufferIn.length)
      omega
  | succ n ih =>
      obtain ⟨ih1, ih2⟩ := ih
      constructor
      · show (read_input (readInputN n s)).2.bufferIn = s.bufferIn
        rw [read_input_snd_bufferIn, ih1]
      · show (read_input (readInputN n s)).2.t = _
        rw [read_input_snd_t, ih1, ih2]
        rcases Nat.lt_or_ge (max s.t (min (s.t + n) s.bufferIn.length))
            s.bufferIn.length with hc | hc
        · rw [if_pos hc]; omega
        · rw [if_neg (by omega)]; omega

theorem readOutputN_drains (os : List Mat) :
    readOutputN os.length (some os) = .ok (os.map some, some []) := by
  induction os with
  | nil => rfl
  | cons y ys ih =>
      show readOutputN (ys.length + 1) (some (y :: ys)) = _
      unfold readOutputN
      simp only [read_output, ih]
      rfl

theorem stepLoopA_ok (net : Mat → Mat → Mat × (Mat × Mat × Mat))
    (struct : Mat → Mat → Mat → Mat) :
    ∀ (n : Nat) (c : ControllerState), c.read.isSome →
      ∃ c', stepLoopA net struct n c =
        .ok (c', List.replicate n TraceAction.stepCall)
  | 0, c, _ => ⟨c, rfl⟩
  | n + 1, c, hc => by
      obtain ⟨r, hr⟩ := Option.isSome_iff_exists.mp hc
      obtain ⟨c1, hok, hread, _, _, _, _⟩ := forward_some_fields net struct c r hr
      have hc1 : c1.read.isSome := by rw [hread]; rfl
      obtain ⟨c', hloop⟩ := stepLoopA_ok net struct n c1 hc1
      refine ⟨c', ?_⟩
      unfold stepLoopA
      simp only [hok, hloop, List.replicate_succ]

/-! Concrete fixtures used by the witness theorems. -/

/-- The controller state as built by `VanillaController.__init__`: the
read vector is `None`.  The constructor also sets `self._buffer_in`,
`self._buffer_out` and `self._zeros` to `None`; those are rendered here
as empty lists, which is sound only where the source never reads them —
as the prior state overwritten by `init`, and in `forward`, which raises
on `self._read is None` before touching any buffer.  The `None` output
buffer itself (and the `TypeError` that `read_output` raises on it) is
modelled faithfully by the `OutBuffer` argument of `read_output`, as the
value `none`. -/
def mkController : ControllerState :=
  { read := none, bufferIn := [], bufferOut := [], t := 0, zeros := [] }

/-- A concrete Network for witnesses: echoes its input as the output and
the push value, with size-1 strengths. -/
def netC : Mat → Mat → Mat × (Mat × Mat × Mat) :=
  fun x _ => (x, (x, [[0]], [[0]]))

/-- A concrete data structure for witnesses: reads back the pushed value. -/
def structC : Mat → Mat → Mat → Mat :=
  fun v _ _ => v

/-- Decidable equality on `Except`, so that witness obligations about
concrete `forward` and `stepN` results can be settled by `decide`. -/
instance {α β : Type} [DecidableEq α] [DecidableEq β] :
    DecidableEq (Except α β) := fun x y =>
  match x, y with
  | .error a, .error b =>
      if h : a = b then isTrue (congrArg Except.error h)
      else isFalse fun hc => h (Except.error.inj hc)
  | .error _, .ok _ => isFalse fun hc => Except.noConfusion hc
  | .ok _, .error _ => isFalse fun hc => Except.noConfusion hc
  | .ok a, .ok b =>
      if h : a = b then isTrue (congrArg Except.ok h)
      else isFalse fun hc => h (Except.ok.inj hc)

/-! Theorems for the claims. -/

/-- C1: calling the controller's step function (`forward`) while the read
vector is still uninitialized (`None`) fails immediately with the state
error `The data structure has not been initialized.`.  The result is the
same for every Network `net` and every structure `struct`, so the Network
is never invoked, and no successor state is produced: the structure, the
buffers and the time cursor are untouched. -/
theorem forward_uninitialized_errors
    (net : Mat → Mat → Mat × (Mat × Mat × Mat))
    (struct : Mat → Mat → Mat → Mat) (s : ControllerState)
    (h : s.read = none) :
    forward net struct s =
      .error "The data structure has not been initialized." :=
  forward_none net struct s h

/-- Witness for C1: the freshly constructed controller has an
uninitialized read vector, and stepping it errors. -/
theorem forward_uninitialized_errors_witness :
    forward netC structC mkController =
      .error "The data structure has not been initialized." :=
  forward_uninitialized_errors netC structC mkController rfl

/-- C5: for every batch size and input sequence, initialization
(`init_controller`, backing `init`) resets the time cursor to `0`,
installs the given input sequence as the input buffer, empties the output
buffer, sets the current read vector to a `batch_size × read_size` zero
vector, and allocates a `batch_size × input_size` zero input vector used
as padding beyond the sequence length. -/
theorem init_controller_resets_session (inputSize readSize batchSize : Nat)
    (xs : List Mat) (s : ControllerState) :
    init_controller inputSize readSize batchSize xs s =
      { read := some (zerosMat batchSize readSize)
        bufferIn := xs
        bufferOut := []
        t := 0
        zeros := zerosMat batchSize inputSize } := rfl

/-- C9: for every state reachable by initialization followed by `n`
input-read operations, the time cursor equals `min n L` (where `L` is the
time length of the installed input buffer), and in particular
`0 ≤ t ≤ L`. -/
theorem time_cursor_invariant (inputSize readSize batchSize n : Nat)
    (xs : List Mat) (s0 : ControllerState) :
    (readInputN n (init_controller inputSize readSize batchSize xs s0)).t =
        min n xs.length ∧
      (readInputN n (init_controller inputSize readSize batchSize xs s0)).t ≤
        xs.length := by
  have h :=
    (readInputN_fields n (init_controller inputSize readSize batchSize xs s0)).2
  have ht : (init_controller inputSize readSize batchSize xs s0).t = 0 := rfl
  have hb :
      (init_controller inputSize readSize batchSize xs s0).bufferIn = xs := rfl
  rw [ht, hb] at h
  rw [h]
  exact ⟨by omega, by omega⟩

/-- C3 counterexample: on an input sequence of time length 1, the second
step call does not advance the time cursor: after two steps `t = 1`, not
`2` as the claim (every step call advances `t` by one, including steps
after the input sequence is exhausted) predicts. -/
theorem step_t_not_always_advancing :
    (stepN netC structC 2 (init_controller 1 1 1 [[[0]]] mkController)).map
        ControllerState.t = .ok 1 ∧
      (stepN netC structC 2 (init_controller 1 1 1 [[[0]]] mkController)).map
        ControllerState.t ≠ .ok 2 := by
  constructor
  · rfl
  · decide

/-- C3 (amended): a step call advances the time cursor by one exactly
while the input sequence is not yet exhausted (`t < L`); once `t` has
reached `L` every further step call leaves `t` unchanged.  In particular
the cursor is non-decreasing across step calls (it is reset only by
re-initialization). -/
theorem step_advances_t_until_exhaustion
    (net : Mat → Mat → Mat × (Mat × Mat × Mat))
    (struct : Mat → Mat → Mat → Mat) (s s' : ControllerState)
    (h : forward net struct s = .ok s') :
    s.t ≤ s'.t ∧ (s.t < s.bufferIn.length → s'.t = s.t + 1) ∧
      (s.bufferIn.length ≤ s.t → s'.t = s.t) := by
  cases hr : s.read with
  | none =>
      rw [forward_none net struct s hr] at h
      exact absurd h (by simp)
  | some r =>
      obtain ⟨s'', hok, _, _, _, ht'', _⟩ := forward_some_fields net struct s r hr
      have hss : s'' = s' := Except.ok.inj (hok.symm.trans h)
      subst hss
      rw [ht'', read_input_snd_t]
      rcases Nat.lt_or_ge s.t s.bufferIn.length with hc | hc
      · rw [if_pos hc]
        exact ⟨by omega, fun _ => rfl, fun hle => absurd hc (by omega)⟩
      · rw [if_neg (by omega)]
        exact ⟨le_refl _, fun hlt => absurd hlt (by omega), fun _ => rfl⟩

/-- Witness for C3 (amended): one concrete step on a fresh length-1
session advances the cursor from 0 to 1. -/
theorem step_advances_t_until_exhaustion_witness :
    forward netC structC (init_controller 1 1 1 [[[0]]] mkController) =
        .ok ⟨some [[0]], [[[0]]], [[[0]]], 1, [[0]]⟩ ∧
      (⟨some [[0]], [[[0]]], [[[0]]], 1, [[0]]⟩ : ControllerState).t =
        (init_controller 1 1 1 [[[0]]] mkController).t + 1 := by
  refine ⟨by decide, ?_⟩
  have h := step_advances_t_until_exhaustion netC structC
    (init_controller 1 1 1 [[[0]]] mkController)
    ⟨some [[0]], [[[0]]], [[[0]]], 1, [[0]]⟩ (by decide)
  exact h.2.1 (by decide)

/-- C2: after initialization with an input sequence of time length `L`,
the `k`-th step call (0-indexed) feeds the `k`-th input vector to the
Network when `k < L` and the `batch_size × input_size` zero vector when
`k ≥ L`; and after `k` step calls the output buffer holds exactly `k`
entries, regardless of `L`.  (`read_input sk` is the fetch performed at
the start of the `k`-th `forward` call, `sk` being the state after the
first `k` calls.) -/
theorem step_input_padding_and_output_count
    (net : Mat → Mat → Mat × (Mat × Mat × Mat))
    (struct : Mat → Mat → Mat → Mat)
    (inputSize readSize batchSize k : Nat) (xs : List Mat)
    (s0 sk : ControllerState)
    (h : stepN net struct k
      (init_controller inputSize readSize batchSize xs s0) = .ok sk) :
    (read_input sk).1 =
        (if k < xs.length then xs.getD k [] else zerosMat batchSize inputSize) ∧
      sk.bufferOut.length = k := by
  obtain ⟨s', hok, _, hin, hz, hlen, ht⟩ :=
    stepN_fields net struct k
      (init_controller inputSize readSize batchSize xs s0) rfl
  have e1 : (init_controller inputSize readSize batchSize xs s0).t = 0 := rfl
  have e2 :
      (init_controller inputSize readSize batchSize xs s0).bufferIn = xs := rfl
  have e3 :
      (init_controller inputSize readSize batchSize xs s0).bufferOut = [] := rfl
  have e4 : (init_controller inputSize readSize batchSize xs s0).zeros =
      zerosMat batchSize inputSize := rfl
  rw [e1, e2] at ht
  rw [e2] at hin
  rw [e3] at hlen
  rw [e4] at hz
  have hsk : s' = sk := Except.ok.inj (hok.symm.trans h)
  subst hsk
  constructor
  · rw [read_input_fst, hin, ht, hz]
    rcases Nat.lt_or_ge k xs.length with hc | hc
    · rw [if_pos (by omega), if_pos hc]
      congr 1
      omega
    · rw [if_neg (by omega), if_neg (by omega)]
  · simpa using hlen

/-- Witness for C2: two steps on a length-1 input; the fetch of the
(0-indexed) second step is the zero-padding vector, and the output buffer
holds two entries. -/
theorem step_input_padding_and_output_count_witness :
    (read_input
        (⟨some [[0]], [[[0]]], [[[0]], [[0]]], 1, [[0]]⟩ : ControllerState)).1 =
        zerosMat 1 1 ∧
      (⟨some [[0]], [[[0]]], [[[0]], [[0]]], 1, [[0]]⟩ :
        ControllerState).bufferOut.length = 2 := by
  have h := step_input_padding_and_output_count netC structC 1 1 1 2 [[[0]]]
    mkController ⟨some [[0]], [[[0]]], [[[0]], [[0]]], 1, [[0]]⟩ (by decide)
  rw [if_neg (by decide)] at h
  exact h

/-- C4 counterexample: in the state before the first step — the freshly
constructed controller, whose `self._buffer_out` is still `None` — a
`read_output` call does not signal empty by returning `None` with the
state unchanged, as the claim says; it raises a `TypeError` from
evaluating `len(self._buffer_out)`. -/
theorem read_output_before_init_raises :
    read_output none = .error "object of type NoneType has no len()" ∧
      read_output none ≠ .ok (none, none) :=
  ⟨rfl, by decide⟩

/-- C4 (amended): once the output buffer is initialized (any state after
`init`, including states before the first step, where the buffer is the
empty list), `read_output` removes and returns the oldest entry in FIFO
order — draining a buffer of `n` entries returns exactly those `n`
entries, front first, and since every step appends its output at the
back of the buffer, successive `read_output` calls return the outputs in
the order the steps produced them — and on an empty initialized buffer
it returns `none`, leaving the buffer (and the rest of the controller,
which the method never touches) unchanged; in the uninitialized state,
whose buffer attribute is still `None`, `read_output` instead raises the
`TypeError` coming from `len(None)`. -/
theorem read_output_fifo_initialized (s : ControllerState) :
    (s.bufferOut = [] →
        read_output (some s.bufferOut) = .ok (none, some s.bufferOut)) ∧
      (∀ y ys, s.bufferOut = y :: ys →
        read_output (some s.bufferOut) = .ok (some y, some ys)) ∧
      readOutputN s.bufferOut.length (some s.bufferOut) =
        .ok (s.bufferOut.map some, some []) ∧
      (∀ net struct s', forward net struct s = .ok s' →
        ∃ out, s'.bufferOut = s.bufferOut ++ [out]) ∧
      read_output none = .error "object of type NoneType has no len()" := by
  refine ⟨?_, ?_, readOutputN_drains s.bufferOut, ?_, rfl⟩
  · intro h
    rw [h]
    rfl
  · intro y ys h
    rw [h]
    rfl
  · intro net struct s' h
    cases hr : s.read with
    | none =>
        rw [forward_none net struct s hr] at h
        exact absurd h (by simp)
    | some r =>
        obtain ⟨s'', hok, _, _, hout, _, _⟩ :=
          forward_some_fields net struct s r hr
        have hss : s'' = s' := Except.ok.inj (hok.symm.trans h)
        subst hss
        exact ⟨_, hout⟩

/-- Witness for C4 (amended): immediately after an `init` the
(initialized, empty) output buffer signals empty with `none`; popping a
one-entry buffer returns its entry and leaves the emptied buffer. -/
theorem read_output_fifo_initialized_witness :
    read_output (some (init_controller 1 1 1 [] mkController).bufferOut) =
        .ok (none, some (init_controller 1 1 1 [] mkController).bufferOut) ∧
      read_output (some [[[1]]]) = .ok (some [[1]], some []) :=
  ⟨(read_output_fifo_initialized (init_controller 1 1 1 [] mkController)).1 rfl,
    (read_output_fifo_initialized ⟨none, [], [[[1]]], 0, []⟩).2.1 [[1]] [] rfl⟩

/-- C6: for every input sequence of time length `L`, `trace` performs
exactly this sequence of actions in order: switches to evaluation mode,
re-initializes the controller with batch size 1 and the given sequence,
enables logging with capacity `L`, calls the step function exactly `L`
times, disables logging, and renders the logged instruction matrix; no
step call occurs outside that loop and logging is enabled exactly around
those `L` steps. -/
theorem trace_action_sequence (net : Mat → Mat → Mat × (Mat × Mat × Mat))
    (struct : Mat → Mat → Mat → Mat) (inputSize readSize : Nat)
    (trace_x : List Mat) (c : ControllerState) (l : LogState) :
    (trace net struct inputSize readSize trace_x c l).map Prod.snd =
      .ok (TraceAction.evalMode :: TraceAction.initCtrl 1 trace_x ::
        TraceAction.startLogging trace_x.length ::
          (List.replicate trace_x.length TraceAction.stepCall ++
            [TraceAction.stopLogging,
              TraceAction.render
                (stop_log
                  (start_log readSize (some trace_x.length) l)).log_data])) := by
  obtain ⟨c', hloop⟩ := stepLoopA_ok net struct trace_x.length
    (init_controller inputSize readSize 1 trace_x c) rfl
  unfold trace
  simp only [hloop]
  rfl

/-- C7: a record attempt (`logRecord`, the `_log` method) is best-effort
and bounded: when logging is disabled or the entry counter has reached the
declared capacity, it returns the state unchanged and without error (the
write is silently dropped); and any successful record attempt keeps the
entry counter within the (unchanged) capacity, so the counter never
exceeds the capacity. -/
theorem logRecord_guard_and_capacity (l : LogState) (v u d : Mat) :
    ((l.log = false ∨ l.log_data_size ≤ l.curr_log_entry) →
        logRecord l v u d = .ok l) ∧
      (∀ l', l.curr_log_entry ≤ l.log_data_size → logRecord l v u d = .ok l' →
        l'.curr_log_entry ≤ l'.log_data_size ∧
          l'.log_data_size = l.log_data_size) := by
  constructor
  · rintro (h | h)
    · unfold logRecord
      rw [if_pos h]
    · unfold logRecord
      by_cases hb : l.log = false
      · rw [if_pos hb]
      · rw [if_neg hb, if_pos h]
  · intro l' hle hok
    unfold logRecord at hok
    by_cases hb : l.log = false
    · rw [if_pos hb] at hok
      cases Except.ok.inj hok
      exact ⟨hle, rfl⟩
    · rw [if_neg hb] at hok
      by_cases hcap : l.log_data_size ≤ l.curr_log_entry
      · rw [if_pos hcap] at hok
        cases Except.ok.inj hok
        exact ⟨hle, rfl⟩
      · rw [if_neg hcap] at hok
        rcases hw1 : writeScalar l.log_data 2 l.curr_log_entry v with e1 | m1 <;>
          simp only [hw1] at hok
        · exact absurd hok (by simp)
        · rcases hw2 : writeScalar m1 0 l.curr_log_entry u with e2 | m2 <;>
            simp only [hw2] at hok
          · exact absurd hok (by simp)
          · rcases hw3 : writeScalar m2 1 l.curr_log_entry d with e3 | m3 <;>
              simp only [hw3] at hok
            · exact absurd hok (by simp)
            · have hl' := Except.ok.inj hok
              subst hl'
              refine ⟨?_, rfl⟩
              show l.curr_log_entry + 1 ≤ l.log_data_size
              omega

/-- Witness for C7: a record attempt with logging disabled is a silent
no-op, and a successful record attempt at capacity 1 leaves the counter
at the capacity. -/
theorem logRecord_guard_and_capacity_witness :
    logRecord ⟨false, [], 0, 0⟩ [[1]] [[1]] [[1]] = .ok ⟨false, [], 0, 0⟩ ∧
      ((⟨true, [[2], [3], [1]], 1, 1⟩ : LogState).curr_log_entry ≤
          (⟨true, [[2], [3], [1]], 1, 1⟩ : LogState).log_data_size ∧
        (⟨true, [[2], [3], [1]], 1, 1⟩ : LogState).log_data_size =
          (⟨true, zerosMat 3 1, 1, 0⟩ : LogState).log_data_size) :=
  ⟨(logRecord_guard_and_capacity ⟨false, [], 0, 0⟩ [[1]] [[1]] [[1]]).1
      (Or.inl rfl),
    (logRecord_guard_and_capacity ⟨true, zerosMat 3 1, 1, 0⟩ [[1]] [[2]] [[3]]).2
      ⟨true, [[2], [3], [1]], 1, 1⟩ (by decide) (by decide)⟩

/-- C8 (code bug): at read size 2 the table allocated by `init_log` has
`2 + read_size = 4` rows, but recording an entry whose push value has the
two components `[1, 2]` does not place them in rows 2 and 3 — the source
assigns the whole push-value array to the single cell
`log_data[2, k]`, which for a size-2 array is a numpy broadcast error, so
the record attempt fails instead of filling the value rows. -/
theorem logRecord_push_value_row_bug :
    logRecord ⟨true, zerosMat 4 1, 1, 0⟩ [[1, 2]] [[0]] [[0]] =
      .error "could not broadcast input array into scalar element" := by
  decide

/-- C10: enabling logging without a capacity (`start_log` with
`log_data_size = None`) sets only the logging flag and leaves the log
table, the declared capacity and the entry counter unchanged (so
previously logged entries are preserved and subsequent records append
after them), whereas enabling with an explicit capacity `n` zero-fills a
fresh `(2 + read_size) × n` table and resets the counter to `0`. -/
theorem start_log_frame (readSize : Nat) (l : LogState) :
    start_log readSize none l = { l with log := true } ∧
      ∀ n, start_log readSize (some n) l =
        { log := true
          log_data := zerosMat (2 + readSize) n
          log_data_size := n
          curr_log_entry := 0 } :=
  ⟨rfl, fun _ => rfl⟩

end StackNN
